import Mathlib

/-!
Shallow embedding of the error-value library (package errors): templates,
materialized errors, mutators, wrapping, rendering and output adapters.
Translated from the current revision of the Go sources (errors.go, types.go,
api.go and the template file). Nondeterministic runtime inputs (the sha1
digest used for id generation and the lines of the captured call stack) are
passed as explicit parameters; panics are modelled with Option; the global
Logger collaborator is modelled by returning the list of emitted log calls.
-/

/-- ErrorType represents the base type of an error regardless of the
specific error message (Go: type ErrorType string). -/
abbrev ErrorType := String

/-- A value stored in the tags map (Go: interface values written by Tag,
TagStr and TagInt: untyped nil, string, int). -/
inductive TagValue where
  | nilVal : TagValue
  | strVal (s : String) : TagValue
  | intVal (i : Int) : TagValue
deriving DecidableEq

/-- Lookup in a Go map modelled as an association list. -/
def assocLookup (m : List (String × TagValue)) (k : String) : Option TagValue :=
  match m with
  | [] => none
  | (k0, v0) :: rest => if k0 = k then some v0 else assocLookup rest k

/-- Insertion in a Go map modelled as an association list (replace or append). -/
def assocInsert (m : List (String × TagValue)) (k : String) (v : TagValue) :
    List (String × TagValue) :=
  match m with
  | [] => [(k, v)]
  | (k0, v0) :: rest => if k0 = k then (k0, v) :: rest else (k0, v0) :: assocInsert rest k v

/-- Read access to a possibly-nil Go map (reading a nil map is total and
finds nothing). -/
def goMapLookup (m : Option (List (String × TagValue))) (k : String) : Option TagValue :=
  match m with
  | none => none
  | some l => assocLookup l k

/-- Write access to a possibly-nil Go map: assignment to an entry of a nil
map panics at runtime, modelled as `none`. -/
def goMapAssign (m : Option (List (String × TagValue))) (k : String) (v : TagValue) :
    Option (List (String × TagValue)) :=
  match m with
  | none => none
  | some l => some (assocInsert l k v)

/-- Go struct flags (types.go). The three map fields are nil-able Go maps,
modelled with Option; New leaves all of them nil. -/
structure flags where
  track : Bool
  trace : Bool
  isSafe : Bool
  tags : Option (List (String × TagValue))
  strTags : Option (List (String × String))
  intTags : Option (List (String × Int))
deriving DecidableEq

/-- Go struct trace (types.go): the once-computed id and stack-trace text. -/
structure trace where
  id : String
  stackTrace : String
deriving DecidableEq

/-- Go struct apiData (types.go). -/
structure apiData where
  httpCode : Int
  errCode : Int
deriving DecidableEq

/-- Go struct baseError (errors.go). The content struct's fields
(message, cause) are inlined so that the recursion through the optional
cause is a single nested inductive. -/
inductive baseError : Type where
  | mk (errType : ErrorType) (message : String) (cause : Option baseError)
       (flags : flags) (trace : trace) (api : apiData)

def baseError.errType : baseError → ErrorType
  | .mk t _ _ _ _ _ => t
def baseError.message : baseError → String
  | .mk _ m _ _ _ _ => m
def baseError.cause : baseError → Option baseError
  | .mk _ _ c _ _ _ => c
def baseError.flags : baseError → flags
  | .mk _ _ _ fl _ _ => fl
def baseError.trace : baseError → trace
  | .mk _ _ _ _ tr _ => tr
def baseError.api : baseError → apiData
  | .mk _ _ _ _ _ a => a

def baseError.GetType (err : baseError) : ErrorType := err.errType
def baseError.GetID (err : baseError) : String := err.trace.id
def baseError.GetStackTrace (err : baseError) : String := err.trace.stackTrace

/-- Model of fmt.Sprintf restricted to the argument-consuming verbs used in
this repository: each %v or %s consumes the next argument (already rendered
to a string); all other text is copied verbatim. -/
def sprintfChars : List Char → List String → String
  | [], _ => ""
  | '%' :: 'v' :: rest, a :: as => a ++ sprintfChars rest as
  | '%' :: 's' :: rest, a :: as => a ++ sprintfChars rest as
  | c :: rest, as => String.singleton c ++ sprintfChars rest as

def goSprintf (format : String) (args : List String) : String :=
  sprintfChars format.data args

/-- One lowercase hex digit as produced by the %x verb. -/
def hexDigit (n : Nat) : Char :=
  if n < 10 then Char.ofNat (48 + n) else Char.ofNat (87 + n)

/-- Two lowercase hex digits for one byte, as the %x verb renders it. -/
def hexByte (b : Nat) : String :=
  String.mk [hexDigit (b / 16 % 16), hexDigit (b % 16)]

/-- The %x rendering of a byte slice: two hex digits per byte, concatenated. -/
def hexBytes : List Nat → String
  | [] => ""
  | b :: bs => hexByte b ++ hexBytes bs

/-- generateID (template file): sha1 over "errType|message|now", then the
%x rendering of the first 8 digest bytes. The 20-byte sha1 digest depends
on the current time and is passed in as `digest`. -/
def generateID (errType : ErrorType) (message : String) (digest : List Nat) : String :=
  hexBytes (digest.take 8)

/-- getStackTrace (template file): keeps the first line of debug.Stack()
(the goroutine header) and all lines from index 1+2*(depth+2) on, joined by
newlines. The split lines of debug.Stack() are passed in as `stackLines`
(strings.Split always yields at least one element). -/
def getStackTrace (stackLines : List String) (depth : Nat) : String :=
  match stackLines with
  | [] => ""
  | l0 :: _ =>
    l0 ++ String.join ((stackLines.drop (1 + 2 * (depth + 2))).map (fun l => "\n" ++ l))

/-- Default api codes (errors.go constants). -/
def defaultHTTPCode : Int := 500
def defaultErrCode : Int := 0

/-- Go struct Template (template file): identity + content + flags + api,
no trace. The content struct's fields are inlined as in baseError. -/
structure Template where
  errType : ErrorType
  message : String
  cause : Option baseError
  flags : flags
  api : apiData

/-- New (template file): returns an error template and uses the message
format string as error type. Eager interpolation when args are supplied.
None of the tag maps is initialized (they remain nil). -/
def New (msg : String) (args : List String) : Template :=
  { errType := msg
    message := if args.isEmpty then msg else goSprintf msg args
    cause := none
    flags := { track := true, trace := false, isSafe := false
               tags := none, strTags := none, intTags := none }
    api := { httpCode := defaultHTTPCode, errCode := defaultErrCode } }

def Template.GetType (t : Template) : ErrorType := t.errType

/-- Track: enables id printing. -/
def Template.Track (t : Template) : Template :=
  { t with flags := { t.flags with track := true } }

/-- Untrack: disables id and stack trace printing. -/
def Template.Untrack (t : Template) : Template :=
  { t with flags := { t.flags with track := false, trace := false } }

/-- Trace: enables stack trace printing (also marks the template tracked). -/
def Template.Trace (t : Template) : Template :=
  { t with flags := { t.flags with track := true, trace := true } }

/-- NoTrace: disables stack trace printing. -/
def Template.NoTrace (t : Template) : Template :=
  { t with flags := { t.flags with trace := false } }

/-- Safe: marks the error as safe for printing to the end-user. -/
def Template.Safe (t : Template) : Template :=
  { t with flags := { t.flags with isSafe := true } }

/-- Msg on a Template: replaces the message; args may be supplied later via Args
(fmt.Sprintf(fmt.Sprintf("%s", msg), args...) equals goSprintf msg args). -/
def Template.Msg (t : Template) (msg : String) (args : List String) : Template :=
  { t with message := if args.isEmpty then msg else goSprintf msg args }

/-- Args on a Template: fills the message placeholders with the given arguments. -/
def Template.Args (t : Template) (args : List String) : Template :=
  { t with message := goSprintf t.message args }

/-- API on a Template: untracks the error, marks it as safe and updates the
error and response codes. -/
def Template.API (t : Template) (httpCode errCode : Int) : Template :=
  { t with
    flags := { t.flags with track := false, trace := false, isSafe := true }
    api := { httpCode := httpCode, errCode := errCode } }

def Template.HTTPCode (t : Template) (code : Int) : Template :=
  { t with api := { t.api with httpCode := code } }

def Template.ErrCode (t : Template) (code : Int) : Template :=
  { t with api := { t.api with errCode := code } }

/-- make (template file): materializes the template, generating the id from the
sha1 digest and a stack trace from the captured stack lines. -/
def Template.make (t : Template) (depth : Nat) (digest : List Nat)
    (stackLines : List String) : baseError :=
  .mk t.errType t.message t.cause t.flags
    ⟨generateID t.errType t.message digest, getStackTrace stackLines (depth + 1)⟩ t.api

def Template.Make (t : Template) (digest : List Nat) (stackLines : List String) : baseError :=
  t.make 1 digest stackLines

def Template.MakeTraced (t : Template) (depth : Nat) (digest : List Nat)
    (stackLines : List String) : baseError :=
  t.make (depth + 1) digest stackLines

/-- GenericError template (template file). -/
def GenericError : Template := (New "An error occured" []).Trace

/-- ConfigurationError template (template file). -/
def ConfigurationError : Template := New "The specified configuration is not valid" []

/-- ArgumentError template (template file). -/
def ArgumentError : Template := New "An invalid argument has been supplied" []

/-- A Go error value entering this library: either an Error of this
library (only baseError implements the interface in this repository) or a
foreign error carrying its concrete runtime type name (what %T renders)
and its rendered message (what its Error() method returns). A nil Go error
is Option.none at use sites. -/
inductive GoError where
  | lib (e : baseError)
  | foreign (typeName : String) (msg : String)

/-- getErrorType (errors.go): the library type for Error values, the %T
runtime type name for foreign errors. -/
def getErrorType : GoError → ErrorType
  | .lib e => e.GetType
  | .foreign typeName _ => typeName

/-- areEqual (errors.go). -/
def areEqual (type1 type2 : ErrorType) : Bool := type1 == type2

/-- wrap (errors.go): nil stays nil, library errors are returned unchanged,
foreign errors are lifted via New(type).Msg(msg).Trace().make(depth+1). -/
def wrap (baseErr : Option GoError) (withType : Bool) (depth : Nat)
    (digest : List Nat) (stackLines : List String) : Option baseError :=
  match baseErr with
  | none => none
  | some (.lib e) => some e
  | some (.foreign typeName msg0) =>
    let errType := getErrorType (.foreign typeName msg0)
    let msg := if withType then
        (if msg0 ≠ "" then "[" ++ errType ++ "] " ++ msg0 else errType)
      else msg0
    some ((((New errType []).Msg msg []).Trace).make (depth + 1) digest stackLines)

/-- Wrap (errors.go). -/
def Wrap (baseErr : Option GoError) (digest : List Nat) (stackLines : List String) :
    Option baseError :=
  wrap baseErr false 1 digest stackLines

/-- WrapT (errors.go). -/
def WrapT (baseErr : Option GoError) (digest : List Nat) (stackLines : List String) :
    Option baseError :=
  wrap baseErr true 1 digest stackLines

/-- Untrack (errors.go): disables id and stack trace printing. -/
def baseError.Untrack (err : baseError) : baseError :=
  .mk err.errType err.message err.cause
    { err.flags with track := false } err.trace err.api

/-- NoTrace (errors.go): disables stack trace printing. -/
def baseError.NoTrace (err : baseError) : baseError :=
  .mk err.errType err.message err.cause
    { err.flags with trace := false } err.trace err.api

/-- Safe (errors.go): marks the error as safe for printing to the end-user. -/
def baseError.Safe (err : baseError) : baseError :=
  .mk err.errType err.message err.cause
    { err.flags with isSafe := true } err.trace err.api

/-- Msg (errors.go): replaces the message and clears the safe flag
(fmt.Sprintf(fmt.Sprintf("%s", msg), args...) equals goSprintf msg args). -/
def baseError.Msg (err : baseError) (msg : String) (args : List String) : baseError :=
  .mk err.errType (if args.isEmpty then msg else goSprintf msg args) err.cause
    { err.flags with isSafe := false } err.trace err.api

/-- Args (errors.go): fills placeholders of the current message; all flags,
the safe flag included, are carried forward unchanged. -/
def baseError.Args (err : baseError) (args : List String) : baseError :=
  .mk err.errType (goSprintf err.message args) err.cause err.flags err.trace err.api

/-- Cause (errors.go): wraps the given Go error and stores it as cause. -/
def baseError.Cause (err : baseError) (cause : Option GoError)
    (digest : List Nat) (stackLines : List String) : baseError :=
  .mk err.errType err.message (Wrap cause digest stackLines) err.flags err.trace err.api

/-- StrCause (errors.go): attaches
GenericError.Msg(str, args...).Untrack().Make() as cause. -/
def baseError.StrCause (err : baseError) (str : String) (args : List String)
    (digest : List Nat) (stackLines : List String) : baseError :=
  .mk err.errType err.message
    (some ((((GenericError.Msg str args).Untrack).Make) digest stackLines))
    err.flags err.trace err.api

/-- Expand (errors.go): new top-level message, the receiver itself becomes
the cause, the safe flag is cleared. -/
def baseError.Expand (err : baseError) (msg : String) (args : List String) : baseError :=
  .mk err.errType (goSprintf msg args) (some err)
    { err.flags with isSafe := false } err.trace err.api

/-- ExpandSafe (errors.go): like Expand but sets the safe flag. -/
def baseError.ExpandSafe (err : baseError) (msg : String) (args : List String) : baseError :=
  .mk err.errType (goSprintf msg args) (some err)
    { err.flags with isSafe := true } err.trace err.api

/-- Tag (errors.go): flags.tags[tag] = nil; panics (none) when the tags map
is nil. -/
def baseError.Tag (err : baseError) (tag : String) : Option baseError :=
  match goMapAssign err.flags.tags tag .nilVal with
  | none => none
  | some m =>
    some (.mk err.errType err.message err.cause
      { err.flags with tags := some m } err.trace err.api)

/-- TagStr (errors.go): flags.tags[tag] = value; panics (none) when the
tags map is nil. -/
def baseError.TagStr (err : baseError) (tag value : String) : Option baseError :=
  match goMapAssign err.flags.tags tag (.strVal value) with
  | none => none
  | some m =>
    some (.mk err.errType err.message err.cause
      { err.flags with tags := some m } err.trace err.api)

/-- TagInt (errors.go): flags.tags[tag] = value; panics (none) when the
tags map is nil. -/
def baseError.TagInt (err : baseError) (tag : String) (value : Int) : Option baseError :=
  match goMapAssign err.flags.tags tag (.intVal value) with
  | none => none
  | some m =>
    some (.mk err.errType err.message err.cause
      { err.flags with tags := some m } err.trace err.api)

/-- IsTagged (errors.go): total read of the possibly-nil tags map. -/
def baseError.IsTagged (err : baseError) (tag : String) : Bool :=
  (goMapLookup err.flags.tags tag).isSome

/-- GetTagStr (errors.go): value and ok flag of the string type assertion. -/
def baseError.GetTagStr (err : baseError) (tag : String) : String × Bool :=
  match goMapLookup err.flags.tags tag with
  | some (.strVal s) => (s, true)
  | some _ => ("", false)
  | none => ("", false)

/-- GetTagInt (errors.go): value and ok flag of the int type assertion. -/
def baseError.GetTagInt (err : baseError) (tag : String) : Int × Bool :=
  match goMapLookup err.flags.tags tag with
  | some (.intVal i) => (i, true)
  | some _ => (0, false)
  | none => (0, false)

/-- HTTPCode (errors.go): sets the http response code. -/
def baseError.HTTPCode (err : baseError) (code : Int) : baseError :=
  .mk err.errType err.message err.cause err.flags err.trace
    { err.api with httpCode := code }

/-- ErrCode (errors.go): sets the api error code. -/
def baseError.ErrCode (err : baseError) (code : Int) : baseError :=
  .mk err.errType err.message err.cause err.flags err.trace
    { err.api with errCode := code }

/-- string (errors.go): shared rendering. Unsafe rendering always prints;
safe rendering prints only when the node's safe flag is set. The node's own
message falls back to the error type when empty; a non-empty rendering of
the cause is appended after ": ". -/
def baseError.string : baseError → Bool → String
  | .mk errType message cause fl _ _, onlySafe =>
    if !onlySafe || fl.isSafe then
      let pre := if message = "" then errType else message
      let suf :=
        match cause with
        | none => ""
        | some c =>
          let s := baseError.string c onlySafe
          if 0 < s.length then ": " ++ s else s
      pre ++ suf
    else ""

def baseError.SafeString (err : baseError) : String := err.string true
def baseError.String (err : baseError) : String := err.string false
def baseError.Error (err : baseError) := err.String

/-- Equals (errors.go): false against nil, else compare resolved types. -/
def baseError.Equals (err : baseError) (other : Option GoError) : Bool :=
  match other with
  | none => false
  | some o => err.errType == getErrorType o

/-- Is (errors.go): instance-of-template check. -/
def baseError.Is (err : baseError) (template : Template) : Bool :=
  err.errType == template.GetType

/-- AreEqual (errors.go): nil/nil true, one nil false, else compare types. -/
def AreEqual (err1 err2 : Option GoError) : Bool :=
  match err1, err2 with
  | none, none => true
  | none, some _ => false
  | some _, none => false
  | some e1, some e2 => areEqual (getErrorType e1) (getErrorType e2)

/-- InstanceOf (errors.go): nil is never an instance. -/
def InstanceOf (err : Option GoError) (template : Template) : Bool :=
  match err with
  | none => false
  | some e => getErrorType e == template.GetType

/-- Go struct APIError (api.go). -/
structure APIError where
  ResponseCode : Int
  ErrorCode : Int
  Message : String
deriving DecidableEq

/-- API constructor function (api.go). -/
def API (httpCode errCode : Int) (message : String) : APIError :=
  ⟨httpCode, errCode, message⟩

/-- DefaultAPI (api.go). -/
def DefaultAPI (message : String) : APIError :=
  ⟨defaultHTTPCode, defaultErrCode, message⟩

/-- API on a materialized error (api.go): the id suffix is attached when the error is
tracked and has an id; the message is the full text under the global
PrintUnsafeErrors override, the safe rendering when flagged safe, and the
fixed generic text otherwise. The process-wide PrintUnsafeErrors switch is
passed as a parameter. -/
def baseError.API (err : baseError) (printUnsafeErrors : Bool) : APIError :=
  let suf := if err.flags.track && 0 < err.trace.id.length
    then " [ID " ++ err.trace.id ++ "]" else ""
  if printUnsafeErrors then
    ⟨err.api.httpCode, err.api.errCode, err.Error ++ suf⟩
  else if err.flags.isSafe then
    ⟨err.api.httpCode, err.api.errCode, err.SafeString ++ suf⟩
  else
    ⟨err.api.httpCode, err.api.errCode, "An error occured" ++ suf⟩

/-- One call to the Logger collaborator: format string and arguments. -/
structure LogCall where
  format : String
  args : List String
deriving DecidableEq

/-- toLog (errors.go): no emission when the error type matches an entry of
the exclusion list (only GetType() of a TypedError is consulted, so the
exclusion list is modelled by the types of its entries); otherwise an id
line when the id is non-empty and a stack line when the trace flag is set
and the stack trace is non-empty. Returns the emitted Logger calls. -/
def baseError.toLog (err : baseError) (except : List ErrorType) : List LogCall :=
  if except.any (fun exceptType => areEqual err.errType exceptType) then []
  else
    (if 0 < err.trace.id.length then
      [if !err.flags.track then ⟨"[ERR] %v", [err.Error]⟩
       else ⟨"[ERR %v] %v", [err.trace.id, err.Error]⟩]
     else []) ++
    (if err.flags.trace && 0 < err.trace.stackTrace.length then
      [if !err.flags.track then ⟨"[STACK] %v", [err.trace.stackTrace]⟩
       else ⟨"[STACK %v] %v", [err.trace.id, err.trace.stackTrace]⟩]
     else [])

/-- ToLog (errors.go): only tracked errors are logged. -/
def baseError.ToLog (err : baseError) (except : List ErrorType) : List LogCall :=
  if err.flags.track then err.toLog except else []

/-- ForceLog (errors.go): logs unconditionally. -/
def baseError.ForceLog (err : baseError) (except : List ErrorType) : List LogCall :=
  err.toLog except

/-! Helper lemmas about strings. -/

lemma length_pos_of_ne_empty (s : String) (h : s ≠ "") : 0 < s.length := by
  cases s with
  | mk l =>
    cases l with
    | nil => exact absurd rfl h
    | cons c cs => simp [String.length]

lemma append_ne_empty_left (a b : String) (ha : a ≠ "") : a ++ b ≠ "" := by
  intro h
  apply ha
  have h2 : a.data ++ b.data = [] := by
    have h3 := congrArg String.data h
    rwa [String.data_append] at h3
  have h4 : a.data = [] := (List.append_eq_nil.mp h2).1
  cases a with
  | mk l => simp at h4; rw [h4]

lemma hexByte_ne_empty (b : Nat) : hexByte b ≠ "" := by
  intro h
  have h2 := congrArg String.data h
  simp [hexByte] at h2

lemma generateID_ne_empty (t m : String) (digest : List Nat) (h : digest ≠ []) :
    generateID t m digest ≠ "" := by
  cases digest with
  | nil => exact absurd rfl h
  | cons d ds =>
    show hexBytes (d :: ds.take 7) ≠ ""
    rw [hexBytes]
    exact append_ne_empty_left _ _ (hexByte_ne_empty d)

lemma getStackTrace_ne_empty (l0 : String) (rest : List String) (depth : Nat) (h : l0 ≠ "") :
    getStackTrace (l0 :: rest) depth ≠ "" := by
  simpa [getStackTrace] using append_ne_empty_left l0 _ h

/-- Claim C3: on a materialized Error, Msg always clears the safe flag
regardless of the receiver's flags, while Args preserves the safe flag. -/
theorem claim_C3 (e : baseError) (msg : String) (args values : List String) :
    (e.Msg msg args).flags.isSafe = false ∧
    (e.Args values).flags.isSafe = e.flags.isSafe :=
  ⟨rfl, rfl⟩

/-- Claim C4: Wrap(nil) is nil, Wrap returns a library Error unchanged, and
Wrap is idempotent: wrapping the result of Wrap again (under any runtime
environment) yields the identical value, with no second materialization. -/
theorem claim_C4 :
    (∀ digest stackLines, Wrap none digest stackLines = none) ∧
    (∀ (e : baseError) digest stackLines,
      Wrap (some (GoError.lib e)) digest stackLines = some e) ∧
    (∀ (x : Option GoError) d1 l1 d2 l2,
      Wrap ((Wrap x d1 l1).map GoError.lib) d2 l2 = Wrap x d1 l1) := by
  refine ⟨fun _ _ => rfl, fun _ _ _ => rfl, ?_⟩
  intro x d1 l1 d2 l2
  match x with
  | none => rfl
  | some (.lib e) => rfl
  | some (.foreign tn m) => rfl

/-- Claim C7 counterexample: New("test") does not have an empty message;
the current New stores the type string itself as the message. -/
theorem claim_C7_counterexample : ¬ ((New "test" []).message = "") := by decide

/-- Claim C7 (amended): New(t) yields a Template whose message is the type
string t itself (not empty), with flags track=true, trace=false,
isSafe=false, API data (500, 0), and no trace (the Template type carries no
trace field at all). -/
theorem claim_C7 (t : String) :
    (New t []).message = t ∧
    (New t []).errType = t ∧
    (New t []).flags.track = true ∧
    (New t []).flags.trace = false ∧
    (New t []).flags.isSafe = false ∧
    (New t []).api = ⟨500, 0⟩ :=
  ⟨rfl, rfl, rfl, rfl, rfl, rfl⟩

/-- Claim C9: an Error materialized from a Template built by New has a nil
tags map, so Tag, TagStr and TagInt panic (modelled as none), while the
read-side accessors are total and return false / ("", false) / (0, false). -/
theorem claim_C9 (msg : String) (args : List String) (depth : Nat)
    (digest : List Nat) (stackLines : List String)
    (tag value : String) (ivalue : Int) :
    (New msg args).flags.tags = none ∧
    ((New msg args).make depth digest stackLines).Tag tag = none ∧
    ((New msg args).make depth digest stackLines).TagStr tag value = none ∧
    ((New msg args).make depth digest stackLines).TagInt tag ivalue = none ∧
    ((New msg args).make depth digest stackLines).IsTagged tag = false ∧
    ((New msg args).make depth digest stackLines).GetTagStr tag = ("", false) ∧
    ((New msg args).make depth digest stackLines).GetTagInt tag = (0, false) :=
  ⟨rfl, rfl, rfl, rfl, rfl, rfl, rfl⟩

/-- A 20-byte sha1 digest value (every byte 0xab) used as a concrete
runtime environment in witnesses. -/
def sampleDigest : List Nat := List.replicate 20 171

/-- Concrete lines of a captured debug.Stack() used in witnesses. -/
def sampleStackLines : List String :=
  ["goroutine 1 [running]:", "main.main()", "\t/app/main.go:10 +0x1a"]

/-- Claim C2: the code violates the claim. Template.make generates a
non-empty id and a non-empty stack trace unconditionally, even when the
template's track and trace flags are both false, contradicting the doc
comment of Make ("generates a new ID and StackTrace ... if tracked and
traced"). Evaluation at the failing input New("test").Untrack().Make(). -/
theorem claim_C2 :
    ((New "test" []).Untrack).flags.track = false ∧
    ((New "test" []).Untrack).flags.trace = false ∧
    (((New "test" []).Untrack).Make sampleDigest sampleStackLines).GetID
      = "abababababababab" ∧
    (((New "test" []).Untrack).Make sampleDigest sampleStackLines).GetStackTrace
      = "goroutine 1 [running]:" ∧
    ¬ ((((New "test" []).Untrack).Make sampleDigest sampleStackLines).GetID = "") ∧
    ¬ ((((New "test" []).Untrack).Make sampleDigest sampleStackLines).GetStackTrace = "") := by
  decide

/-- Claim C1: every mutator on a materialized Error with a non-empty id
carries the trace record (id and stack trace) forward verbatim; for the
tag mutators, whenever they return at all (the tags map was non-nil), the
returned Error has the same id and stack trace. -/
theorem claim_C1 (e : baseError) (h : e.GetID ≠ "") :
    ((e.Untrack).GetID = e.GetID ∧ (e.Untrack).GetStackTrace = e.GetStackTrace) ∧
    ((e.NoTrace).GetID = e.GetID ∧ (e.NoTrace).GetStackTrace = e.GetStackTrace) ∧
    ((e.Safe).GetID = e.GetID ∧ (e.Safe).GetStackTrace = e.GetStackTrace) ∧
    (∀ msg args, (e.Msg msg args).GetID = e.GetID ∧
      (e.Msg msg args).GetStackTrace = e.GetStackTrace) ∧
    (∀ args, (e.Args args).GetID = e.GetID ∧
      (e.Args args).GetStackTrace = e.GetStackTrace) ∧
    (∀ c digest stackLines, (e.Cause c digest stackLines).GetID = e.GetID ∧
      (e.Cause c digest stackLines).GetStackTrace = e.GetStackTrace) ∧
    (∀ str args digest stackLines,
      (e.StrCause str args digest stackLines).GetID = e.GetID ∧
      (e.StrCause str args digest stackLines).GetStackTrace = e.GetStackTrace) ∧
    (∀ msg args, (e.Expand msg args).GetID = e.GetID ∧
      (e.Expand msg args).GetStackTrace = e.GetStackTrace) ∧
    (∀ msg args, (e.ExpandSafe msg args).GetID = e.GetID ∧
      (e.ExpandSafe msg args).GetStackTrace = e.GetStackTrace) ∧
    (∀ tag e2, e.Tag tag = some e2 →
      e2.GetID = e.GetID ∧ e2.GetStackTrace = e.GetStackTrace) ∧
    (∀ tag value e2, e.TagStr tag value = some e2 →
      e2.GetID = e.GetID ∧ e2.GetStackTrace = e.GetStackTrace) ∧
    (∀ tag value e2, e.TagInt tag value = some e2 →
      e2.GetID = e.GetID ∧ e2.GetStackTrace = e.GetStackTrace) ∧
    (∀ code, (e.HTTPCode code).GetID = e.GetID ∧
      (e.HTTPCode code).GetStackTrace = e.GetStackTrace) ∧
    (∀ code, (e.ErrCode code).GetID = e.GetID ∧
      (e.ErrCode code).GetStackTrace = e.GetStackTrace) := by
  refine ⟨⟨rfl, rfl⟩, ⟨rfl, rfl⟩, ⟨rfl, rfl⟩,
    fun _ _ => ⟨rfl, rfl⟩, fun _ => ⟨rfl, rfl⟩,
    fun _ _ _ => ⟨rfl, rfl⟩, fun _ _ _ _ => ⟨rfl, rfl⟩,
    fun _ _ => ⟨rfl, rfl⟩, fun _ _ => ⟨rfl, rfl⟩, ?_, ?_, ?_,
    fun _ => ⟨rfl, rfl⟩, fun _ => ⟨rfl, rfl⟩⟩
  · intro tag e2 htag
    cases hm : e.flags.tags with
    | none => simp [baseError.Tag, goMapAssign, hm] at htag
    | some l =>
      simp [baseError.Tag, goMapAssign, hm] at htag
      rw [← htag]
      exact ⟨rfl, rfl⟩
  · intro tag value e2 htag
    cases hm : e.flags.tags with
    | none => simp [baseError.TagStr, goMapAssign, hm] at htag
    | some l =>
      simp [baseError.TagStr, goMapAssign, hm] at htag
      rw [← htag]
      exact ⟨rfl, rfl⟩
  · intro tag value e2 htag
    cases hm : e.flags.tags with
    | none => simp [baseError.TagInt, goMapAssign, hm] at htag
    | some l =>
      simp [baseError.TagInt, goMapAssign, hm] at htag
      rw [← htag]
      exact ⟨rfl, rfl⟩

/-- A concrete materialized error with a non-empty id, used by witnesses. -/
def sampleErr : baseError :=
  .mk "SampleError" "sample message" none
    { track := true, trace := true, isSafe := false
      tags := none, strTags := none, intTags := none }
    ⟨"abc123", "goroutine 1 [running]:"⟩ ⟨500, 0⟩

/-- Witness for claim C1 at the concrete error sampleErr. -/
theorem claim_C1_witness :
    (sampleErr.Untrack).GetID = sampleErr.GetID ∧
    (sampleErr.Untrack).GetStackTrace = sampleErr.GetStackTrace :=
  (claim_C1 sampleErr (by decide)).1

/-- Claim C5 counterexample: the claim states that wrapping a foreign error
materializes it with tracking disabled, but the wrapped error has
track=true (wrap applies Trace(), which forces track). -/
theorem claim_C5_counterexample :
    ¬ ((Wrap (some (GoError.foreign "*errors.errorString" "file not found"))
        sampleDigest sampleStackLines).map (fun e => e.flags.track) = some false) := by
  decide

/-- Claim C5 (amended): wrapping a non-nil foreign error yields an Error
whose type is the foreign runtime type name, whose message is the foreign
rendered message, which is materialized immediately (non-empty id and stack
trace, given a full 20-byte sha1 digest and a non-empty goroutine header
line), with tracking enabled and stack-trace capture enabled. -/
theorem claim_C5 (typeName msg : String) (digest : List Nat)
    (stackLines : List String) (l0 : String) (rest : List String)
    (hdigest : digest.length = 20) (hlines : stackLines = l0 :: rest)
    (hl0 : l0 ≠ "") :
    ∃ e : baseError,
      Wrap (some (GoError.foreign typeName msg)) digest stackLines = some e ∧
      e.GetType = typeName ∧
      e.message = msg ∧
      e.GetID ≠ "" ∧
      e.GetStackTrace ≠ "" ∧
      e.flags.track = true ∧
      e.flags.trace = true := by
  subst hlines
  refine ⟨_, rfl, rfl, rfl, ?_, ?_, rfl, rfl⟩
  · exact generateID_ne_empty typeName msg digest
      (by intro hnil; rw [hnil] at hdigest; simp at hdigest)
  · exact getStackTrace_ne_empty l0 rest 3 hl0

/-- Witness for claim C5 at a concrete foreign error and environment. -/
theorem claim_C5_witness :
    ∃ e : baseError,
      Wrap (some (GoError.foreign "*errors.errorString" "file not found"))
        sampleDigest sampleStackLines = some e ∧
      e.GetType = "*errors.errorString" ∧
      e.message = "file not found" ∧
      e.GetID ≠ "" ∧
      e.GetStackTrace ≠ "" ∧
      e.flags.track = true ∧
      e.flags.trace = true :=
  claim_C5 "*errors.errorString" "file not found" sampleDigest sampleStackLines
    "goroutine 1 [running]:" ["main.main()", "\t/app/main.go:10 +0x1a"]
    (by decide) rfl (by decide)

lemma suffix_cond_eq (s : String) :
    (if 0 < s.length then ": " ++ s else s) = (if s = "" then "" else ": " ++ s) := by
  by_cases h : s = ""
  · subst h; decide
  · rw [if_neg h, if_pos (length_pos_of_ne_empty s h)]

/-- Unfolding lemma for the shared rendering function, in the shape of the
specification: a node renders (in safe mode only when its own safe flag is
set) its message with fallback to the type string, followed by ": " plus
the rendering of the cause exactly when that rendering is non-empty. -/
lemma string_unfold (t m : String) (c : Option baseError) (fl : flags)
    (tr : trace) (a : apiData) (onlySafe : Bool) :
    baseError.string (.mk t m c fl tr a) onlySafe =
      if !onlySafe || fl.isSafe then
        (if m = "" then t else m) ++
        (match c with
         | none => ""
         | some c2 => if baseError.string c2 onlySafe = "" then ""
                      else ": " ++ baseError.string c2 onlySafe)
      else "" := by
  rw [baseError.string.eq_def]
  dsimp only
  by_cases hcond : (!onlySafe || fl.isSafe) = true
  · simp only [hcond, eq_self_iff_true, if_true]
    cases c with
    | none => rfl
    | some c2 => dsimp only; rw [suffix_cond_eq]
  · simp only [hcond]
    rfl

/-- Claim C6: SafeString is empty when the node's safe flag is unset; when
set it renders the node's own message (falling back to the type string when
empty) followed by ": " plus the cause's SafeString exactly when that is
non-empty; Error()/String() always render the full text, appending the
cause's full rendering the same way regardless of any safe flag. -/
theorem claim_C6 (e : baseError) :
    (e.SafeString = if e.flags.isSafe then
        (if e.message = "" then e.errType else e.message) ++
        (match e.cause with
         | none => ""
         | some c => if c.SafeString = "" then "" else ": " ++ c.SafeString)
      else "") ∧
    e.Error = e.String ∧
    (e.String =
      (if e.message = "" then e.errType else e.message) ++
      (match e.cause with
       | none => ""
       | some c => if c.String = "" then "" else ": " ++ c.String)) := by
  obtain ⟨t, m, c, fl, tr, a⟩ := e
  refine ⟨?_, rfl, ?_⟩
  · show baseError.string _ true = _
    rw [string_unfold]
    simp [baseError.SafeString, baseError.flags, baseError.message,
      baseError.errType, baseError.cause]
  · show baseError.string _ false = _
    rw [string_unfold]
    simp [baseError.String, baseError.flags, baseError.message,
      baseError.errType, baseError.cause]

/-- Claim C8: ToLog emits nothing when the track flag is false; ForceLog
emits regardless of the track flag (non-empty output whenever the id is
non-empty and no exclusion matches); and for both, an exclusion-list entry
whose ErrorType equals the receiver's suppresses every Logger call. -/
theorem claim_C8 (e : baseError) (except : List ErrorType) :
    (e.flags.track = false → e.ToLog except = []) ∧
    (except.any (fun exceptType => areEqual e.errType exceptType) = true →
      e.ToLog except = [] ∧ e.ForceLog except = []) ∧
    (except.any (fun exceptType => areEqual e.errType exceptType) = false →
      e.trace.id ≠ "" → e.ForceLog except ≠ []) := by
  refine ⟨?_, ?_, ?_⟩
  · intro h
    simp [baseError.ToLog, h]
  · intro h
    constructor
    · simp [baseError.ToLog, baseError.toLog, h]
    · simp [baseError.ForceLog, baseError.toLog, h]
  · intro h hid
    have hlen : 0 < e.trace.id.length := length_pos_of_ne_empty _ hid
    simp [baseError.ForceLog, baseError.toLog, h, hlen]

/-- Witness for claim C8 at concrete errors and exclusion lists. -/
theorem claim_C8_witness :
    (sampleErr.Untrack).ToLog [] = [] ∧
    (sampleErr.ToLog ["SampleError"] = [] ∧ sampleErr.ForceLog ["SampleError"] = []) ∧
    sampleErr.ForceLog [] ≠ [] :=
  ⟨(claim_C8 (sampleErr.Untrack) []).1 rfl,
   (claim_C8 sampleErr ["SampleError"]).2.1 (by decide),
   (claim_C8 sampleErr []).2.2 (by decide) (by decide)⟩

/-- Claim C10: with the disclosure override off, on an unsafe, tracked
Error with a non-empty id, API() returns the generic placeholder message
with the id-correlation suffix appended, together with the stored codes. -/
theorem claim_C10 (e : baseError)
    (hsafe : e.flags.isSafe = false) (htrack : e.flags.track = true)
    (hid : e.trace.id ≠ "") :
    e.API false =
      ⟨e.api.httpCode, e.api.errCode, "An error occured [ID " ++ e.trace.id ++ "]"⟩ := by
  have hlen : 0 < e.trace.id.length := length_pos_of_ne_empty _ hid
  simp [baseError.API, hsafe, htrack, hlen]
  rfl

/-- Witness for claim C10 at the concrete error sampleErr. -/
theorem claim_C10_witness :
    sampleErr.API false =
      ⟨sampleErr.api.httpCode, sampleErr.api.errCode,
       "An error occured [ID " ++ sampleErr.trace.id ++ "]"⟩ :=
  claim_C10 sampleErr rfl rfl (by decide)
